import Mathlib

/-!
Shallow embedding of the availability / conflict-detection core of the
pet-rental backend (crud/booking.py, crud/calendar.py, routers/bookings.py).

Modelling conventions:
* Calendar dates are day numbers (`Int`); `date` comparison and
  `timedelta(days=1)` stepping become integer comparison and `+ 1`.
* Mongo collections are Lean lists in insertion order; `find_one` is
  `List.find?`, a `find(query)` cursor is `List.filter`, and
  `to_list(length=n)` is `List.take n` after the filter.  An `async for`
  loop over a cursor iterates the whole filtered list (no cap).
* Monetary values are `ℚ`; the Python float literal `0.10` is the rational
  `1 / 10`.
* Reasons built by f-string interpolation of a boundary date are modelled
  as constructors carrying that date, so that "the message contains the
  boundary date" is expressible.
-/

namespace PetRent

abbrev Date := Int

/-- A document of the `pets` collection (the fields the availability code
reads: owner, status, listingType, dailyRate, availableFrom/availableTo). -/
structure Pet where
  id : String
  owner_id : String
  status : String := "active"
  listingType : String := "rent"
  dailyRate : ℚ := 0
  availableFrom : Option Date := none
  availableTo : Option Date := none
  name : String := ""
deriving DecidableEq, Repr

/-- A document of the `bookings` collection.  Pricing fields default to 0
for bookings set up directly as test fixtures. -/
structure Booking where
  id : String
  pet_id : String
  owner_id : String := ""
  renter_id : String := ""
  start_date : Date
  end_date : Date
  status : String
  total_days : Int := 0
  daily_rate : ℚ := 0
  total_amount : ℚ := 0
  service_fee : ℚ := 0
  grand_total : ℚ := 0
  payment_status : String := "pending"
deriving DecidableEq, Repr

/-- A document of the `blocked_dates` collection. -/
structure BlockedDate where
  id : String
  pet_id : String
  start_date : Date
  end_date : Date
  reason : String := "unavailable"
  notes : Option String := none
deriving DecidableEq, Repr

/-- Every calendar day from `s` to `e` inclusive, ascending (the
`while current_date <= end_date: ... += timedelta(days=1)` loops). -/
def daysIn (s e : Date) : List Date :=
  (List.range (e + 1 - s).toNat).map (fun i => s + (i : Int))

/-- `pets.find_one with the given _id` (used by both crud modules). -/
def find_pet (pets : List Pet) (pet_id : String) : Option Pet :=
  pets.find? (fun p => p.id = pet_id)

/-- The `$or` date filter of the conflicting-bookings query in
`check_pet_availability` (crud/booking.py lines 206-210):
overlap, or start inside the query range, or end inside the query range. -/
def bookingOverlapOr (bs be qs qe : Date) : Bool :=
  (decide (bs ≤ qe) && decide (be ≥ qs)) ||
  (decide (bs ≥ qs) && decide (bs ≤ qe)) ||
  (decide (be ≥ qs) && decide (be ≤ qe))

/-- Full filter of the conflicting-bookings query in
`check_pet_availability` (crud/booking.py): same pet, status in
[pending, accepted, in_progress], date `$or`. -/
def petAvailBookingFilter (pid : String) (qs qe : Date) (b : Booking) : Bool :=
  decide (b.pet_id = pid) &&
  ["pending", "accepted", "in_progress"].contains b.status &&
  bookingOverlapOr b.start_date b.end_date qs qe

/-- The three-case `$or` date filter used by every conflict query in
crud/calendar.py (create_blocked_date, update_blocked_date,
check_date_availability): record starts inside the range, or ends inside
the range, or spans the whole range. -/
def calOverlapOr (bs be qs qe : Date) : Bool :=
  (decide (bs ≥ qs) && decide (bs ≤ qe)) ||
  (decide (be ≥ qs) && decide (be ≤ qe)) ||
  (decide (bs ≤ qs) && decide (be ≥ qe))

/-- Booking filter of the calendar-module conflict queries: same pet,
status in [pending, confirmed], three-case date `$or`. -/
def calBookingFilter (pid : String) (qs qe : Date) (b : Booking) : Bool :=
  decide (b.pet_id = pid) &&
  ["pending", "confirmed"].contains b.status &&
  calOverlapOr b.start_date b.end_date qs qe

/-- Blocked-date filter of the calendar-module conflict queries: same pet,
three-case date `$or`. -/
def calBlockFilter (pid : String) (qs qe : Date) (bl : BlockedDate) : Bool :=
  decide (bl.pet_id = pid) &&
  calOverlapOr bl.start_date bl.end_date qs qe

/-- Result dictionary of `check_pet_availability` (crud/booking.py). -/
structure PetAvailResult where
  available : Bool
  reason : Option String := none
  conflicting_bookings : List Booking := []
  available_dates : List Date := []
deriving DecidableEq, Repr

/-- `check_pet_availability` (crud/booking.py lines 163-242): pet must
exist, be active and listed for rent; the requested dates must fall inside
availableFrom/availableTo when set; then the conflicting-bookings query
(iterated in full by `async for`, no result cap) decides availability. -/
def check_pet_availability (pets : List Pet) (bookings : List Booking)
    (pet_id : String) (start_date end_date : Date) : PetAvailResult :=
  match find_pet pets pet_id with
  | none => { available := false, reason := some "Pet is not available for rent" }
  | some pet =>
    if pet.status ≠ "active" ∨ pet.listingType ≠ "rent" then
      { available := false, reason := some "Pet is not available for rent" }
    else if pet.availableFrom.any (fun f => decide (f > start_date)) then
      { available := false,
        reason := some "Start date is before pet\x27s available from date" }
    else if pet.availableTo.any (fun t => decide (t < end_date)) then
      { available := false,
        reason := some "End date is after pet\x27s available to date" }
    else
      let conflicting := bookings.filter (petAvailBookingFilter pet_id start_date end_date)
      if conflicting ≠ [] then
        { available := false,
          reason := some "Pet is already booked during these dates",
          conflicting_bookings := conflicting }
      else
        { available := true, available_dates := daysIn start_date end_date }

/-- `get_booking` (crud/booking.py lines 110-121): the booking is returned
only when the requesting user is its owner or its renter. -/
def get_booking (bookings : List Booking) (booking_id user_id : String) : Option Booking :=
  bookings.find? (fun b =>
    decide (b.id = booking_id) &&
    (decide (b.owner_id = user_id) || decide (b.renter_id = user_id)))

/-- `bookings.find_one with the given _id` (crud/booking.py line 256). -/
def find_booking (bookings : List Booking) (booking_id : String) : Option Booking :=
  bookings.find? (fun b => b.id = booking_id)

/-- `update_one` on the `bookings` collection filtered by `_id`: replaces the
first document with that id. -/
def replace_first_booking : List Booking → String → Booking → List Booking
  | [], _, _ => []
  | b :: rest, booking_id, nb =>
    if b.id = booking_id then nb :: rest
    else b :: replace_first_booking rest booking_id nb

/-- `update_booking_status` (crud/booking.py lines 245-292): permission is
checked against the REQUESTED status only (accepted/rejected/completed need
the owner, cancelled needs owner or renter, anything else is unchecked);
then the status is set unconditionally and the booking re-read via
`get_booking`.  Returns the re-read booking and the new collection state. -/
def update_booking_status (bookings : List Booking) (booking_id : String)
    (new_status : String) (user_id : String) : Option Booking × List Booking :=
  match find_booking bookings booking_id with
  | none => (none, bookings)
  | some booking =>
    if (new_status = "accepted" ∨ new_status = "rejected") ∧ booking.owner_id ≠ user_id then
      (none, bookings)
    else if new_status = "cancelled" ∧ booking.owner_id ≠ user_id ∧ booking.renter_id ≠ user_id then
      (none, bookings)
    else if new_status = "completed" ∧ booking.owner_id ≠ user_id then
      (none, bookings)
    else
      let db := replace_first_booking bookings booking_id { booking with status := new_status }
      (get_booking db booking_id user_id, db)

/-- `create_booking` (crud/booking.py lines 8-107): load the pet (None when
absent), run `check_pet_availability` (None when unavailable), reject a
zero daily rate on a rent listing, price the stay, insert the document with
status pending / payment pending.  `new_id` stands for the generated Mongo
`_id`.  Returns the created document and the new collection state; every
failure path leaves the collection untouched. -/
def create_booking (pets : List Pet) (bookings : List Booking) (new_id : String)
    (pet_id : String) (start_date end_date : Date) (renter_id : String) :
    Option Booking × List Booking :=
  match find_pet pets pet_id with
  | none => (none, bookings)
  | some pet =>
    let availability := check_pet_availability pets bookings pet_id start_date end_date
    if !availability.available then (none, bookings)
    else
      let total_days : Int := (end_date - start_date) + 1
      let daily_rate := pet.dailyRate
      if daily_rate = 0 ∧ pet.listingType = "rent" then (none, bookings)
      else
        let total_amount := daily_rate * (total_days : ℚ)
        let service_fee := total_amount * (1 / 10)
        let grand_total := total_amount + service_fee
        let doc : Booking :=
          { id := new_id, pet_id := pet_id, owner_id := pet.owner_id,
            renter_id := renter_id, start_date := start_date, end_date := end_date,
            status := "pending", total_days := total_days, daily_rate := daily_rate,
            total_amount := total_amount, service_fee := service_fee,
            grand_total := grand_total, payment_status := "pending" }
        (some doc, bookings ++ [doc])

/-- The HTTPException raised by the booking router. -/
structure HttpError where
  status_code : Nat
  detail : String
deriving DecidableEq, Repr

/-- The single failure detail of the booking-creation endpoint. -/
def booking_failure_detail : String :=
  "Failed to create booking. Pet may not be available for the selected dates."

/-- `create_booking_endpoint` (routers/bookings.py lines 18-37): returns the
created booking, or one fixed 400 Bad Request response whenever
`create_booking` returned None, whatever the cause. -/
def create_booking_endpoint (pets : List Pet) (bookings : List Booking) (new_id : String)
    (pet_id : String) (start_date end_date : Date) (renter_id : String) :
    Except HttpError Booking × List Booking :=
  match create_booking pets bookings new_id pet_id start_date end_date renter_id with
  | (some b, db) => (.ok b, db)
  | (none, db) => (.error { status_code := 400, detail := booking_failure_detail }, db)

/-- Reasons produced by `check_date_availability` (crud/calendar.py).  The
source builds message strings by f-string interpolation; constructors carry
the interpolated data (in particular the availability-window boundary date). -/
inductive BlockedReason where
  | petNotFound
  | onlyAvailableFrom (d : Date)
  | onlyAvailableUntil (d : Date)
  | alreadyBooked
  | datesBlocked (reason : String)
deriving DecidableEq, Repr

/-- Result dictionary of `check_date_availability` (crud/calendar.py). -/
structure DateAvailResult where
  is_available : Bool
  blocked_reason : Option BlockedReason := none
  booking_ids : List String := []
  conflicting_dates : List Date := []
deriving DecidableEq, Repr

/-- The sorted duplicate-free list of days of the query range covered by at
least one of the given (start, end) ranges.  The source accumulates a
Python set by walking `max(start, qs) .. min(end, qe)` per record and
returns `sorted(list(...))`; over the ascending `daysIn` list this is the
same as filtering for days some record covers. -/
def conflictingDays (qs qe : Date) (ranges : List (Date × Date)) : List Date :=
  (daysIn qs qe).filter (fun d =>
    ranges.any (fun r => decide (r.1 ≤ d) && decide (d ≤ r.2)))

/-- Occupancy part of `check_date_availability` (crud/calendar.py lines
650-741): the conflicting-bookings query capped by `to_list(length=10)`,
then the blocked-dates query capped the same way.  The reported block
reason comes from the Python loop variable after the loop, i.e. the last
fetched block. -/
def check_date_availability_occupancy (bookings : List Booking)
    (blocks : List BlockedDate) (pet_id : String) (start_date end_date : Date) :
    DateAvailResult :=
  let conflicting_bookings :=
    (bookings.filter (calBookingFilter pet_id start_date end_date)).take 10
  if conflicting_bookings ≠ [] then
    { is_available := false,
      blocked_reason := some .alreadyBooked,
      booking_ids := conflicting_bookings.map (·.id),
      conflicting_dates := conflictingDays start_date end_date
        (conflicting_bookings.map (fun b => (b.start_date, b.end_date))) }
  else
    let blocked_dates :=
      (blocks.filter (calBlockFilter pet_id start_date end_date)).take 10
    if blocked_dates ≠ [] then
      { is_available := false,
        blocked_reason := some (.datesBlocked
          (match blocked_dates.getLast? with
           | some bl => bl.reason
           | none => "unavailable")),
        conflicting_dates := conflictingDays start_date end_date
          (blocked_dates.map (fun bl => (bl.start_date, bl.end_date))) }
    else
      { is_available := true }

/-- `check_date_availability` (crud/calendar.py lines 617-741): pet must
exist; the requested range must respect availableFrom/availableTo when
set (checked in that order, before any occupancy query); then the
occupancy checks run. -/
def check_date_availability (pets : List Pet) (bookings : List Booking)
    (blocks : List BlockedDate) (pet_id : String) (start_date end_date : Date) :
    DateAvailResult :=
  match find_pet pets pet_id with
  | none => { is_available := false, blocked_reason := some .petNotFound }
  | some pet =>
    let afterWindow : DateAvailResult :=
      match pet.availableTo with
      | some t =>
        if end_date > t then
          { is_available := false, blocked_reason := some (.onlyAvailableUntil t) }
        else check_date_availability_occupancy bookings blocks pet_id start_date end_date
      | none => check_date_availability_occupancy bookings blocks pet_id start_date end_date
    match pet.availableFrom with
    | some f =>
      if start_date < f then
        { is_available := false, blocked_reason := some (.onlyAvailableFrom f) }
      else afterWindow
    | none => afterWindow

/-- Outcomes of the blocked-date mutators (crud/calendar.py).  The source
returns None or result dictionaries; constructors mirror them. -/
inductive BlockResult where
  | petNotFound
  | blockNotFound
  | forbidden
  | bookingConflict (booking_ids : List String)
  | blockConflict (block_ids : List String)
  | noChanges
  | created (b : BlockedDate)
  | updated (b : BlockedDate)
deriving DecidableEq, Repr

/-- `create_blocked_date` (crud/calendar.py lines 9-122): pet must exist and
belong to the owner; the booking-conflict query (status pending/confirmed,
capped at 10) and the block-overlap query (capped at 10) must both be
empty; then the block is inserted.  Returns the outcome and the new
`blocked_dates` collection state. -/
def create_blocked_date (pets : List Pet) (bookings : List Booking)
    (blocks : List BlockedDate) (new_id : String) (pet_id owner_id : String)
    (start_date end_date : Date) (reason : String) (notes : Option String) :
    BlockResult × List BlockedDate :=
  match pets.find? (fun p => decide (p.id = pet_id) && decide (p.owner_id = owner_id)) with
  | none => (.petNotFound, blocks)
  | some _ =>
    let conflicting_bookings :=
      (bookings.filter (calBookingFilter pet_id start_date end_date)).take 10
    if conflicting_bookings ≠ [] then
      (.bookingConflict (conflicting_bookings.map (·.id)), blocks)
    else
      let existing_blocks :=
        (blocks.filter (calBlockFilter pet_id start_date end_date)).take 10
      if existing_blocks ≠ [] then
        (.blockConflict (existing_blocks.map (·.id)), blocks)
      else
        let bl : BlockedDate :=
          { id := new_id, pet_id := pet_id, start_date := start_date,
            end_date := end_date, reason := reason, notes := notes }
        (.created bl, blocks ++ [bl])

/-- The update payload of `update_blocked_date` after
`dict(exclude_unset=True)`: present keys only. -/
structure BlockedDateUpdate where
  start_date : Option Date := none
  end_date : Option Date := none
  reason : Option String := none
  notes : Option String := none
deriving DecidableEq, Repr

/-- `update_one` on the `blocked_dates` collection filtered by `_id`. -/
def replace_first_block : List BlockedDate → String → BlockedDate → List BlockedDate
  | [], _, _ => []
  | bl :: rest, block_id, nb =>
    if bl.id = block_id then nb :: rest
    else bl :: replace_first_block rest block_id nb

/-- `update_blocked_date` (crud/calendar.py lines 125-273): the block must
exist and its pet belong to the owner; with no fields to change it
reports "No changes to update"; when a date changes, the booking-conflict
query (status pending/confirmed, capped at 10) and the block-overlap query
excluding this block (capped at 10) are re-run against the effective
range; then the `$set` update is applied. -/
def update_blocked_date (pets : List Pet) (bookings : List Booking)
    (blocks : List BlockedDate) (block_id owner_id : String)
    (upd : BlockedDateUpdate) : BlockResult × List BlockedDate :=
  match blocks.find? (fun bl => bl.id = block_id) with
  | none => (.blockNotFound, blocks)
  | some blocked_date =>
    match pets.find? (fun p =>
        decide (p.id = blocked_date.pet_id) && decide (p.owner_id = owner_id)) with
    | none => (.forbidden, blocks)
    | some _ =>
      if upd.start_date = none ∧ upd.end_date = none ∧
         upd.reason = none ∧ upd.notes = none then
        (.noChanges, blocks)
      else
        let s := upd.start_date.getD blocked_date.start_date
        let e := upd.end_date.getD blocked_date.end_date
        let nb : BlockedDate :=
          { blocked_date with
            start_date := s, end_date := e,
            reason := upd.reason.getD blocked_date.reason,
            notes := match upd.notes with
                     | some n => some n
                     | none => blocked_date.notes }
        if upd.start_date ≠ none ∨ upd.end_date ≠ none then
          let conflicting_bookings :=
            (bookings.filter (calBookingFilter blocked_date.pet_id s e)).take 10
          if conflicting_bookings ≠ [] then
            (.bookingConflict (conflicting_bookings.map (·.id)), blocks)
          else
            let existing_blocks :=
              (blocks.filter (fun bl =>
                decide (bl.id ≠ block_id) &&
                calBlockFilter blocked_date.pet_id s e bl)).take 10
            if existing_blocks ≠ [] then
              (.blockConflict (existing_blocks.map (·.id)), blocks)
            else
              (.updated nb, replace_first_block blocks block_id nb)
        else
          (.updated nb, replace_first_block blocks block_id nb)

/-- A per-day entry of the pet calendar (crud/calendar.py get_pet_calendar). -/
inductive CalEntry where
  | available
  | blocked (reason : String) (block_id : String)
  | booked (booking_id : String) (booking_status : String) (renter_id : String)
deriving DecidableEq, Repr

/-- Last element of the list whose range covers day `d`.  Models the
last-write-wins dictionary overlay loops of `get_pet_calendar`: each
record walks its clamped day range and overwrites the entry for the day. -/
def lastCovering {α : Type} (rangeOf : α → Date × Date) (l : List α) (d : Date) :
    Option α :=
  l.foldl (fun acc x =>
    if (rangeOf x).1 ≤ d ∧ d ≤ (rangeOf x).2 then some x else acc) none

/-- The wide `$or` fetch filter of `get_pet_calendar`: start before the
range end, or end after the range start (a union, so it also fetches
records that do not overlap the range; their overlay loops then run zero
iterations). -/
def calFetchOr (bs be qs qe : Date) : Bool :=
  decide (bs ≤ qe) || decide (be ≥ qs)

/-- `get_pet_calendar` (crud/calendar.py lines 324-416): pet must exist;
start from every day of the range marked available, in ascending order;
overlay the fetched blocked dates (capped at 100), then the fetched
bookings with status pending/confirmed (capped at 100), each clamped to
the range — a later write to a day replaces the earlier one, so bookings
override blocks.  Returns the ordered per-day list. -/
def get_pet_calendar (pets : List Pet) (bookings : List Booking)
    (blocks : List BlockedDate) (pet_id : String) (start_date end_date : Date) :
    Option (List (Date × CalEntry)) :=
  match find_pet pets pet_id with
  | none => none
  | some _ =>
    let blocked_dates :=
      (blocks.filter (fun bl =>
        decide (bl.pet_id = pet_id) &&
        calFetchOr bl.start_date bl.end_date start_date end_date)).take 100
    let fetched_bookings :=
      (bookings.filter (fun b =>
        decide (b.pet_id = pet_id) &&
        ["pending", "confirmed"].contains b.status &&
        calFetchOr b.start_date b.end_date start_date end_date)).take 100
    some ((daysIn start_date end_date).map (fun d =>
      match lastCovering (fun b => (b.start_date, b.end_date)) fetched_bookings d with
      | some b => (d, .booked b.id b.status b.renter_id)
      | none =>
        match lastCovering (fun bl => (bl.start_date, bl.end_date)) blocked_dates d with
        | some bl => (d, .blocked bl.reason bl.id)
        | none => (d, .available)))

/-- Fixture: an active pet listed for rent. -/
def pet1 : Pet := { id := "p1", owner_id := "o1" }

/-- Fixture: eleven pending bookings of pet1, all spanning days 0..4. -/
def elevenBookings : List Booking :=
  (List.range 11).map (fun i =>
    { id := toString (i + 1), pet_id := "p1",
      start_date := 0, end_date := 4, status := "pending" })

/-- Fixture: a booking of pet1 with status accepted, spanning days 0..4. -/
def acceptedBooking : Booking :=
  { id := "b1", pet_id := "p1", owner_id := "o1", renter_id := "r1",
    start_date := 0, end_date := 4, status := "accepted" }

/-- Claim C1: conflict completeness fails in the code.  With eleven pending
bookings all overlapping the query range, `check_date_availability` still
reports unavailable, but its `to_list(length=10)` cap returns exactly ten
booking ids and the id "11" of the eleventh overlapping active booking is
missing from `booking_ids` — the result limit silently truncates the
conflict set. -/
theorem c1_conflict_set_truncated :
    (check_date_availability [pet1] elevenBookings [] "p1" 0 4).is_available = false ∧
    (check_date_availability [pet1] elevenBookings [] "p1" 0 4).booking_ids.length = 10 ∧
    "11" ∉ (check_date_availability [pet1] elevenBookings [] "p1" 0 4).booking_ids ∧
    (elevenBookings.filter (calBookingFilter "p1" 0 4)).length = 11 := by decide

/-- Claim C2: the occupancy status filter differs between the two checkers.
A booking with status "accepted" (active) overlapping the query range is
reported as a conflict by `check_pet_availability` (filter pending /
accepted / in_progress) but is invisible to `check_date_availability`,
whose filter is the literal list pending / confirmed — and "confirmed" is
not a value of the BookingStatus enum the write paths store. -/
theorem c2_accepted_booking_invisible_to_calendar_check :
    acceptedBooking.status = "accepted" ∧
    (check_pet_availability [pet1] [acceptedBooking] "p1" 0 4).available = false ∧
    (check_date_availability [pet1] [acceptedBooking] [] "p1" 0 4).is_available = true := by
  decide

/-- Claim C3: the BlockedDate / active-booking exclusion invariant is not
enforced.  With an accepted booking on days 1..5, `create_blocked_date`
for days 3..7 succeeds and persists the block, although the new block and
the active booking overlap (block start 3 is at most booking end 5 and
booking start 1 is at most block end 7). -/
theorem c3_block_created_over_accepted_booking :
    (create_blocked_date [pet1] [{ acceptedBooking with start_date := 1, end_date := 5 }]
        [] "bl1" "p1" "o1" 3 7 "personal" none).1 =
      .created { id := "bl1", pet_id := "p1", start_date := 3, end_date := 7,
                 reason := "personal", notes := none } ∧
    (create_blocked_date [pet1] [{ acceptedBooking with start_date := 1, end_date := 5 }]
        [] "bl1" "p1" "o1" 3 7 "personal" none).2 =
      [{ id := "bl1", pet_id := "p1", start_date := 3, end_date := 7,
         reason := "personal", notes := none }] ∧
    ((3 : Date) ≤ 5 ∧ (1 : Date) ≤ 7) := by decide

/-- Claim C6: the calendar projection misses active bookings.  With the
accepted booking covering every day of the query range 0..2 and no
blocks, `get_pet_calendar` renders each day "available" instead of
"booked", because its booking fetch filters on status pending / confirmed
only. -/
theorem c6_accepted_booking_not_projected :
    acceptedBooking.start_date ≤ 0 ∧ (2 : Date) ≤ acceptedBooking.end_date ∧
    acceptedBooking.status = "accepted" ∧
    get_pet_calendar [pet1] [acceptedBooking] [] "p1" 0 2 =
      some [(0, .available), (1, .available), (2, .available)] := by decide

/-- Claim C4: for valid ranges the `$or` filter of `check_pet_availability`
is exactly the closed-interval overlap predicate: a booking [bs, be] and a
query [qs, qe] with bs ≤ be and qs ≤ qe conflict iff bs ≤ qe and qs ≤ be.
In particular a booking ending on day D conflicts with a request starting
on day D, and a request starting on day D + 1 does not. -/
theorem c4_overlap_iff (bs be qs qe : Date) (hb : bs ≤ be) (hq : qs ≤ qe) :
    bookingOverlapOr bs be qs qe = true ↔ (bs ≤ qe ∧ qs ≤ be) := by
  simp only [bookingOverlapOr, Bool.or_eq_true, Bool.and_eq_true,
    decide_eq_true_eq, ge_iff_le]
  refine ⟨fun h => ?_, fun h => Or.inl (Or.inl ⟨h.1, h.2⟩)⟩
  rcases h with (⟨h1, h2⟩ | ⟨h1, h2⟩) | ⟨h1, h2⟩
  · exact ⟨h1, h2⟩
  · exact ⟨h2, le_trans h1 hb⟩
  · exact ⟨le_trans hb h2, h1⟩

/-- Witness for C4 at the boundary inputs of the spec: booking days 1..5
against query 5..10 (shared day 5: conflict) and against query 6..10 (no
shared day: no conflict). -/
theorem c4_overlap_iff_witness :
    ((1 : Date) ≤ 5 ∧ (5 : Date) ≤ 10 ∧
      (bookingOverlapOr 1 5 5 10 = true ↔ ((1 : Date) ≤ 10 ∧ (5 : Date) ≤ 5))) ∧
    ((6 : Date) ≤ 10 ∧
      (bookingOverlapOr 1 5 6 10 = true ↔ ((1 : Date) ≤ 10 ∧ (6 : Date) ≤ 5))) :=
  ⟨⟨by decide, by decide, c4_overlap_iff 1 5 5 10 (by decide) (by decide)⟩,
   ⟨by decide, c4_overlap_iff 1 5 6 10 (by decide) (by decide)⟩⟩

/-- Fixture: a booking of pet1 in terminal status rejected. -/
def rejectedBooking : Booking :=
  { id := "b1", pet_id := "p1", owner_id := "o1", renter_id := "r1",
    start_date := 0, end_date := 4, status := "rejected" }

/-- Claim C5 counterexample: `update_booking_status` transitions a booking
OUT of the terminal status rejected.  The owner requests status accepted
on a rejected booking and the stored status changes to accepted, so the
claim that no status-update request changes a rejected booking is false. -/
theorem c5_rejected_booking_reaccepted :
    rejectedBooking.status = "rejected" ∧
    (update_booking_status [rejectedBooking] "b1" "accepted" "o1").1 =
      some { rejectedBooking with status := "accepted" } ∧
    (update_booking_status [rejectedBooking] "b1" "accepted" "o1").2 =
      [{ rejectedBooking with status := "accepted" }] := by decide

/-- After replacing the first booking with the given id, looking the id up
finds the replacement, provided the lookup found something before and the
replacement keeps the id. -/
theorem find_booking_replace_first (l : List Booking) (booking_id : String)
    (nb : Booking) (hnb : nb.id = booking_id)
    (h : (find_booking l booking_id).isSome) :
    find_booking (replace_first_booking l booking_id nb) booking_id = some nb := by
  induction l with
  | nil => simp [find_booking] at h
  | cons b rest ih =>
    by_cases hb : b.id = booking_id
    · simp [replace_first_booking, hb, find_booking, hnb]
    · have h' : (find_booking rest booking_id).isSome := by
        simpa [find_booking, List.find?_cons, hb] using h
      simpa [replace_first_booking, hb, find_booking, List.find?_cons] using ih h'

/-- The actor-permission check of `update_booking_status` (crud/booking.py
lines 261-272), read off the elif chain on the REQUESTED status: accepted
and rejected require the owner, cancelled requires the owner or the
renter, completed requires the owner, and any other requested status is
not checked at all.  It is a function of the requested status and the
party ids only — the current status of the booking is not an input. -/
def status_update_permitted (new_status owner_id renter_id user_id : String) : Bool :=
  if new_status = "accepted" ∨ new_status = "rejected" then
    decide (owner_id = user_id)
  else if new_status = "cancelled" then
    decide (owner_id = user_id) || decide (renter_id = user_id)
  else if new_status = "completed" then
    decide (owner_id = user_id)
  else
    true

/-- Claim C5 amended: `update_booking_status` is fully determined by the
actor-permission check selected by the REQUESTED status (accepted /
rejected / completed need the owner, cancelled needs the owner or the
renter, any other status is unchecked) and never consults the current
status: when the check fails nothing changes and None is returned; when
it passes, the requested status is stored unconditionally — from ANY
current status, including rejected, cancelled and completed — and the
updated booking is re-read via `get_booking`. -/
theorem c5_status_update_ignores_current_status
    (bookings : List Booking) (booking_id new_status user_id : String) (b : Booking)
    (hfind : find_booking bookings booking_id = some b) :
    (status_update_permitted new_status b.owner_id b.renter_id user_id = false →
      update_booking_status bookings booking_id new_status user_id = (none, bookings)) ∧
    (status_update_permitted new_status b.owner_id b.renter_id user_id = true →
      find_booking ((update_booking_status bookings booking_id new_status user_id).2)
          booking_id = some { b with status := new_status } ∧
      (update_booking_status bookings booking_id new_status user_id).1 =
        get_booking ((update_booking_status bookings booking_id new_status user_id).2)
          booking_id user_id) := by
  have hid : b.id = booking_id := by
    have hmem := List.find?_some hfind
    simpa using hmem
  have hsome : (find_booking bookings booking_id).isSome := by rw [hfind]; rfl
  constructor
  · intro hperm
    unfold status_update_permitted at hperm
    unfold update_booking_status
    rw [hfind]
    dsimp only
    split_ifs at hperm with h1 h2 h3
    · rw [if_pos ⟨h1, of_decide_eq_false hperm⟩]
    · obtain ⟨ho, hr⟩ := Bool.or_eq_false_iff.mp hperm
      rw [if_neg (fun hc => h1 hc.1),
          if_pos ⟨h2, of_decide_eq_false ho, of_decide_eq_false hr⟩]
    · rw [if_neg (fun hc => h1 hc.1), if_neg (fun hc => h2 hc.1),
          if_pos ⟨h3, of_decide_eq_false hperm⟩]
  · intro hperm
    unfold status_update_permitted at hperm
    unfold update_booking_status
    rw [hfind]
    dsimp only
    split_ifs at hperm with h1 h2 h3
    · have ho := of_decide_eq_true hperm
      rw [if_neg (fun hc => hc.2 ho), if_neg (fun hc => hc.2.1 ho),
          if_neg (fun hc => hc.2 ho)]
      exact ⟨find_booking_replace_first bookings booking_id _ hid hsome, rfl⟩
    · simp only [Bool.or_eq_true, decide_eq_true_eq] at hperm
      rcases hperm with ho | hr
      · rw [if_neg (fun hc => hc.2 ho), if_neg (fun hc => hc.2.1 ho),
            if_neg (fun hc => hc.2 ho)]
        exact ⟨find_booking_replace_first bookings booking_id _ hid hsome, rfl⟩
      · rw [if_neg (fun hc => h1 hc.1), if_neg (fun hc => hc.2.2 hr),
            if_neg (fun hc => absurd (h2.symm.trans hc.1) (by decide))]
        exact ⟨find_booking_replace_first bookings booking_id _ hid hsome, rfl⟩
    · have ho := of_decide_eq_true hperm
      rw [if_neg (fun hc => hc.2 ho), if_neg (fun hc => hc.2.1 ho),
          if_neg (fun hc => hc.2 ho)]
      exact ⟨find_booking_replace_first bookings booking_id _ hid hsome, rfl⟩
    · rw [if_neg (fun hc => h1 hc.1), if_neg (fun hc => h2 hc.1),
          if_neg (fun hc => h3 hc.1)]
      exact ⟨find_booking_replace_first bookings booking_id _ hid hsome, rfl⟩

/-- Fixture: a booking of pet1 in terminal status completed. -/
def completedBooking : Booking := { rejectedBooking with status := "completed" }

/-- Witness for C5: the RENTER cancels the completed fixture booking — the
renter-cancel permission passes and the stored document leaves the
terminal status completed for cancelled. -/
theorem c5_status_update_witness :
    find_booking ((update_booking_status [completedBooking] "b1" "cancelled" "r1").2)
        "b1" = some { completedBooking with status := "cancelled" } ∧
    (update_booking_status [completedBooking] "b1" "cancelled" "r1").1 =
      get_booking ((update_booking_status [completedBooking] "b1" "cancelled" "r1").2)
        "b1" "r1" :=
  (c5_status_update_ignores_current_status [completedBooking] "b1" "cancelled" "r1"
    completedBooking (by decide)).2 (by decide)

/-- Claim C7: the pet availability window is enforced, with the boundary
date in the reason, before any occupancy query (the bookings and blocks
collections are arbitrary and never consulted): a request starting before
availableFrom fails with the availableFrom date; a request ending after
availableTo, when the availableFrom check passes, fails with the
availableTo date; and either violation makes the range unavailable. -/
theorem c7_window_checked_before_occupancy
    (pets : List Pet) (bookings : List Booking) (blocks : List BlockedDate)
    (pet_id : String) (qs qe : Date) (pet : Pet)
    (hp : find_pet pets pet_id = some pet) :
    (∀ f, pet.availableFrom = some f → qs < f →
      check_date_availability pets bookings blocks pet_id qs qe =
        { is_available := false, blocked_reason := some (.onlyAvailableFrom f) }) ∧
    (∀ t, pet.availableTo = some t →
      (∀ f, pet.availableFrom = some f → f ≤ qs) → t < qe →
      check_date_availability pets bookings blocks pet_id qs qe =
        { is_available := false, blocked_reason := some (.onlyAvailableUntil t) }) ∧
    (((∃ f, pet.availableFrom = some f ∧ qs < f) ∨
      (∃ t, pet.availableTo = some t ∧ t < qe)) →
      (check_date_availability pets bookings blocks pet_id qs qe).is_available = false) := by
  refine ⟨?_, ?_, ?_⟩
  · intro f hf hlt
    simp [check_date_availability, hp, hf, hlt]
  · intro t ht hfrom hlt
    cases hfv : pet.availableFrom with
    | none => simp [check_date_availability, hp, hfv, ht, hlt]
    | some f =>
      have hf' : ¬ qs < f := not_lt.mpr (hfrom f hfv)
      simp [check_date_availability, hp, hfv, hf', ht, hlt]
  · rintro (⟨f, hf, hlt⟩ | ⟨t, ht, hlt⟩)
    · simp [check_date_availability, hp, hf, hlt]
    · cases hfv : pet.availableFrom with
      | none => simp [check_date_availability, hp, hfv, ht, hlt]
      | some f =>
        by_cases hq : qs < f
        · simp [check_date_availability, hp, hfv, hq]
        · simp [check_date_availability, hp, hfv, hq, ht, hlt]

/-- Fixture: a pet available only between day 10 and day 20. -/
def windowPet : Pet :=
  { id := "p7", owner_id := "o1", availableFrom := some 10, availableTo := some 20 }

/-- Witness for C7: requesting days 5..8 on the window pet fails before any
occupancy query with the availableFrom boundary day 10 in the reason. -/
theorem c7_window_witness :
    check_date_availability [windowPet] [] [] "p7" 5 8 =
      { is_available := false, blocked_reason := some (.onlyAvailableFrom 10) } :=
  (c7_window_checked_before_occupancy [windowPet] [] [] "p7" 5 8 windowPet
    (by decide)).1 10 rfl (by decide)

/-- Claim C8: pricing of the persisted booking.  Whenever `create_booking`
persists a document, that document satisfies
total_days = (end - start) + 1, daily_rate = the pet daily rate,
total_amount = daily_rate * total_days, service_fee = total_amount * 1/10
(the fixed 10 percent constant), grand_total = total_amount + service_fee. -/
theorem c8_booking_pricing
    (pets : List Pet) (bookings : List Booking) (new_id pet_id : String)
    (s e : Date) (renter_id : String) (pet : Pet) (bk : Booking) (db : List Booking)
    (hpet : find_pet pets pet_id = some pet) (hse : s ≤ e)
    (h : create_booking pets bookings new_id pet_id s e renter_id = (some bk, db)) :
    bk.total_days = (e - s) + 1 ∧
    bk.daily_rate = pet.dailyRate ∧
    bk.total_amount = bk.daily_rate * (bk.total_days : ℚ) ∧
    bk.service_fee = bk.total_amount * (1 / 10) ∧
    bk.grand_total = bk.total_amount + bk.service_fee := by
  unfold create_booking at h
  rw [hpet] at h
  dsimp only at h
  split_ifs at h with h1 h2
  · exact absurd h (by simp)
  · exact absurd h (by simp)
  · rw [Prod.mk.injEq, Option.some.injEq] at h
    obtain ⟨hbk, -⟩ := h
    subst hbk
    refine ⟨rfl, rfl, rfl, rfl, rfl⟩

/-- Fixture: an active rent pet with daily rate 50. -/
def ratedPet : Pet := { id := "p8", owner_id := "o1", dailyRate := 50 }

/-- Fixture: the booking document `create_booking` persists for ratedPet
over days 0..2 (3 days at rate 50: amount 150, fee 15, total 165). -/
def pricedBooking : Booking :=
  { id := "n1", pet_id := "p8", owner_id := "o1", renter_id := "r1",
    start_date := 0, end_date := 2, status := "pending", total_days := 3,
    daily_rate := 50, total_amount := 150, service_fee := 15,
    grand_total := 165, payment_status := "pending" }

/-- Witness for C8 on a concrete successful creation. -/
theorem c8_booking_pricing_witness :
    pricedBooking.total_days = (2 - 0) + 1 ∧
    pricedBooking.daily_rate = ratedPet.dailyRate ∧
    pricedBooking.total_amount = pricedBooking.daily_rate * (pricedBooking.total_days : ℚ) ∧
    pricedBooking.service_fee = pricedBooking.total_amount * (1 / 10) ∧
    pricedBooking.grand_total = pricedBooking.total_amount + pricedBooking.service_fee :=
  c8_booking_pricing [ratedPet] [] "n1" "p8" 0 2 "r1" ratedPet pricedBooking
    [pricedBooking] (by decide) (by decide) (by
      have hfp : find_pet [ratedPet] "p8" = some ratedPet := by decide
      have hav : check_pet_availability [ratedPet] [] "p8" 0 2 =
          { available := true, available_dates := [0, 1, 2] } := by decide
      unfold create_booking
      rw [hfp]
      dsimp only
      rw [hav]
      norm_num [ratedPet, pricedBooking, Prod.ext_iff])

/-- Every failure path of `create_booking` leaves the bookings collection
unchanged: a None first component forces the whole result to
(None, original collection). -/
theorem create_booking_fail_state
    (pets : List Pet) (bookings : List Booking) (new_id pet_id : String)
    (s e : Date) (renter_id : String)
    (h : (create_booking pets bookings new_id pet_id s e renter_id).1 = none) :
    create_booking pets bookings new_id pet_id s e renter_id = (none, bookings) := by
  cases hfp : find_pet pets pet_id with
  | none =>
    unfold create_booking
    rw [hfp]
  | some pet =>
    unfold create_booking at h ⊢
    rw [hfp] at h ⊢
    dsimp only at h ⊢
    split_ifs at h ⊢ <;> rfl

instance {ε α : Type} [DecidableEq ε] [DecidableEq α] : DecidableEq (Except ε α) :=
  fun a b =>
    match a, b with
    | .error x, .error y =>
      decidable_of_iff (x = y) ⟨fun h => by rw [h], fun h => by injection h⟩
    | .error _, .ok _ => isFalse (fun h => Except.noConfusion h)
    | .ok _, .error _ => isFalse (fun h => Except.noConfusion h)
    | .ok x, .ok y =>
      decidable_of_iff (x = y) ⟨fun h => by rw [h], fun h => by injection h⟩

/-- Fixture: a pending booking of pet1 over days 0..4. -/
def pendingBooking : Booking :=
  { id := "b1", pet_id := "p1", owner_id := "o1", renter_id := "r1",
    start_date := 0, end_date := 4, status := "pending" }

/-- Claim C9 counterexample: the booking-creation endpoint does not return
404 for an absent pet nor 409 with conflict details for an occupied range:
both failures produce the same 400 Bad Request with one fixed generic
message (no booking ids, no conflicting dates). -/
theorem c9_failures_collapse_to_400 :
    (create_booking_endpoint [] [] "n1" "missing" 0 2 "r1").1 =
      .error { status_code := 400, detail := booking_failure_detail } ∧
    (create_booking_endpoint [pet1] [pendingBooking] "n1" "p1" 2 6 "r1").1 =
      .error { status_code := 400, detail := booking_failure_detail } ∧
    (400 : Nat) ≠ 404 ∧ (400 : Nat) ≠ 409 := by decide

/-- Claim C9 amended: the endpoint returns the created booking and the
updated collection on success; on EVERY failure of `create_booking` (pet
absent, pet unavailable, date conflict — all collapsed to None by the
crud layer) it raises the same 400 Bad Request with the fixed generic
detail, and the bookings collection is unchanged. -/
theorem c9_endpoint_error_contract
    (pets : List Pet) (bookings : List Booking) (new_id pet_id : String)
    (s e : Date) (renter_id : String) :
    ((create_booking pets bookings new_id pet_id s e renter_id).1 = none →
      create_booking_endpoint pets bookings new_id pet_id s e renter_id =
        (.error { status_code := 400, detail := booking_failure_detail }, bookings)) ∧
    (∀ b db, create_booking pets bookings new_id pet_id s e renter_id = (some b, db) →
      create_booking_endpoint pets bookings new_id pet_id s e renter_id = (.ok b, db)) := by
  constructor
  · intro h
    unfold create_booking_endpoint
    rw [create_booking_fail_state pets bookings new_id pet_id s e renter_id h]
  · intro b db h
    unfold create_booking_endpoint
    rw [h]

/-- Witness for C9 amended: the absent-pet failure yields the 400 response
and an unchanged (empty) collection. -/
theorem c9_endpoint_error_contract_witness :
    create_booking_endpoint [] [] "n1" "missing" 0 2 "r1" =
      (.error { status_code := 400, detail := booking_failure_detail }, []) :=
  (c9_endpoint_error_contract [] [] "n1" "missing" 0 2 "r1").1 (by decide)

/-- Claim C10: a pet whose status is not "active" or whose listingType is
not "rent" is never bookable: `check_pet_availability` answers unavailable
with reason "Pet is not available for rent", and `create_booking` persists
nothing, for every requested range. -/
theorem c10_inactive_or_nonrent_pet_not_bookable
    (pets : List Pet) (bookings : List Booking) (pet_id new_id renter_id : String)
    (s e : Date) (pet : Pet)
    (hp : find_pet pets pet_id = some pet)
    (h : pet.status ≠ "active" ∨ pet.listingType ≠ "rent") :
    check_pet_availability pets bookings pet_id s e =
      { available := false, reason := some "Pet is not available for rent" } ∧
    create_booking pets bookings new_id pet_id s e renter_id = (none, bookings) := by
  have h1 : check_pet_availability pets bookings pet_id s e =
      { available := false, reason := some "Pet is not available for rent" } := by
    unfold check_pet_availability
    rw [hp]
    dsimp only
    rw [if_pos h]
  refine ⟨h1, ?_⟩
  unfold create_booking
  rw [hp]
  dsimp only
  rw [h1]
  simp

/-- Fixture: a pet with a non-active status. -/
def soldPet : Pet := { id := "p10", owner_id := "o1", status := "sold" }

/-- Witness for C10 on the sold pet. -/
theorem c10_witness :
    check_pet_availability [soldPet] [] "p10" 0 2 =
      { available := false, reason := some "Pet is not available for rent" } ∧
    create_booking [soldPet] [] "n1" "p10" 0 2 "r1" = (none, []) :=
  c10_inactive_or_nonrent_pet_not_bookable [soldPet] [] "p10" "n1" "r1" 0 2 soldPet
    (by decide) (Or.inl (by decide))

end PetRent

example : (PetRent.check_pet_availability
    [{ id := "p1", owner_id := "o1" }]
    [{ id := "b1", pet_id := "p1", start_date := 1, end_date := 5, status := "accepted" }]
    "p1" 5 10).available = false := by decide

example : (PetRent.check_pet_availability
    [{ id := "p1", owner_id := "o1" }]
    [{ id := "b1", pet_id := "p1", start_date := 1, end_date := 5, status := "accepted" }]
    "p1" 6 10).available = true := by decide
